import Mathlib

/-!
Verification of the speech-capture-and-transcription core of PaperFlow
(`src-tauri/src/managers/{audio,live_preview,transcription,diarization}.rs`).

Shallow embedding conventions:
* Audio samples are modelled as `ℚ` (the code uses `f32` only as an opaque
  payload; the only sample value the managers themselves produce is the `0.0`
  padding in `stop_recording`).
* External collaborators (the cpal `AudioRecorder`, the `transcribe_rs`
  engines, the Groq HTTP client, the pyannote models, the settings store) are
  not under `src/`; their outcomes enter the model as explicit state fields or
  environment records, while every branch written in the repository's own
  managers is embedded faithfully.
* Locks are modelled by explicit state: `try_lock` failure is a Boolean
  "currently held" flag, and the blocking paths are ordinary sequential code.
-/

namespace PaperFlow

/-! ### Audio recording manager (`managers/audio.rs`) -/

/-- Embeds `RecordingState` (audio.rs:104-108): `Idle | Recording{binding_id}`. -/
inductive RecordingState where
  | idle : RecordingState
  | recording (bindingId : String) : RecordingState
deriving DecidableEq, Repr

/-- Embeds `MicrophoneMode` (audio.rs:110-114). -/
inductive MicrophoneMode where
  | alwaysOn : MicrophoneMode
  | onDemand : MicrophoneMode
deriving DecidableEq, Repr

/-- Embeds `WHISPER_SAMPLE_RATE` (audio.rs:100). -/
def WHISPER_SAMPLE_RATE : Nat := 16000

/-- State of the external `AudioRecorder` (the `audio_toolkit` recorder is an
external collaborator; the managers only observe the sample buffer that
`rec.stop()` returns, modelled as `buf`). -/
structure RecorderState where
  buf : List ℚ
deriving DecidableEq, Repr

/-- Embeds the fields of `AudioRecordingManager` (audio.rs:167-178) that the
recording operations read or write, plus two environment flags abstracting
the external device layer: `deviceOk` is whether recorder construction and
`rec.open(..)` succeed in `start_microphone_stream`, `recStartOk` whether
`rec.start()` succeeds, `recStopOk` whether `rec.stop()` returns `Ok`
(on `Err` the code substitutes `Vec::new()`). -/
structure AudioRecordingManager where
  state : RecordingState
  mode : MicrophoneMode
  recorder : Option RecorderState
  isOpen : Bool
  isRecording : Bool
  didMute : Bool
  deviceOk : Bool
  recStartOk : Bool
  recStopOk : Bool
deriving DecidableEq, Repr

/-- Embeds `start_microphone_stream` (audio.rs:269-316): idempotent when the
stream is already open; clears `did_mute`; constructs the recorder if absent
and opens it (both gated by the external `deviceOk`); sets `is_open` on
success. Returns the updated manager and whether the call succeeded. -/
def startMicrophoneStream (m : AudioRecordingManager) : AudioRecordingManager × Bool :=
  if m.isOpen then (m, true)
  else
    let m := { m with didMute := false }
    if m.deviceOk then
      let m :=
        match m.recorder with
        | none => { m with recorder := some ⟨[]⟩ }
        | some _ => m
      ({ m with isOpen := true }, true)
    else (m, false)

/-- Embeds `stop_microphone_stream` (audio.rs:318-341): no-op when not open;
unmutes; if still recording, stops the recorder (discarding its samples) and
clears `is_recording`; closes the stream. -/
def stopMicrophoneStream (m : AudioRecordingManager) : AudioRecordingManager :=
  if m.isOpen = false then m
  else
    let m := { m with didMute := false }
    let m :=
      match m.recorder with
      | some _ =>
          if m.isRecording then { m with recorder := some ⟨[]⟩, isRecording := false } else m
      | none => m
    { m with isOpen := false }

/-- Embeds `try_start_recording` (audio.rs:369-396): succeeds only from
`Idle`; in `OnDemand` mode first opens the stream (returning `false` on
failure); starts the recorder; on success transitions to
`Recording{binding_id}` and returns `true`; in every other case returns
`false` (never an error). -/
def tryStartRecording (m : AudioRecordingManager) (bindingId : String) :
    AudioRecordingManager × Bool :=
  match m.state with
  | .recording _ => (m, false)
  | .idle =>
    let (m, ok) :=
      match m.mode with
      | .onDemand => startMicrophoneStream m
      | .alwaysOn => (m, true)
    if ok = false then (m, false)
    else
      match m.recorder with
      | none => (m, false)
      | some _ =>
          if m.recStartOk then
            ({ m with isRecording := true, state := .recording bindingId }, true)
          else (m, false)

/-- Embeds `stop_recording` (audio.rs:472-515): only a matching active
recording yields samples; the recorder is stopped (its buffer taken, `[]` on
`rec.stop()` error or missing recorder); in `OnDemand` mode the stream is
closed; finally, a non-empty result shorter than `WHISPER_SAMPLE_RATE`
samples is zero-padded to `WHISPER_SAMPLE_RATE * 5 / 4` samples
(`padded.resize(16000 * 5 / 4, 0.0)`). -/
def stopRecording (m : AudioRecordingManager) (bindingId : String) :
    Option (List ℚ) × AudioRecordingManager :=
  match m.state with
  | .idle => (none, m)
  | .recording active =>
    if active = bindingId then
      let m := { m with state := .idle }
      let (samples, m) :=
        match m.recorder with
        | some rec =>
            if m.recStopOk then (rec.buf, { m with recorder := some ⟨[]⟩ })
            else (([] : List ℚ), { m with recorder := some ⟨[]⟩ })
        | none => (([] : List ℚ), m)
      let m := { m with isRecording := false }
      let m :=
        match m.mode with
        | .onDemand => stopMicrophoneStream m
        | .alwaysOn => m
      let sLen := samples.length
      if sLen < WHISPER_SAMPLE_RATE ∧ 0 < sLen then
        (some (samples ++ List.replicate (WHISPER_SAMPLE_RATE * 5 / 4 - sLen) 0), m)
      else (some samples, m)
    else (none, m)

/-- Embeds `cancel_recording` (audio.rs:524-542): stops the active recording
(if any), discards its samples without padding, and in `OnDemand` mode closes
the stream. -/
def cancelRecording (m : AudioRecordingManager) : AudioRecordingManager :=
  match m.state with
  | .idle => m
  | .recording _ =>
    let m := { m with state := .idle }
    let m :=
      match m.recorder with
      | some _ => { m with recorder := some ⟨[]⟩ }
      | none => m
    let m := { m with isRecording := false }
    match m.mode with
    | .onDemand => stopMicrophoneStream m
    | .alwaysOn => m

/-- One recording-lifecycle call, for reasoning about call sequences. -/
inductive AudioCall where
  | tryStart (bindingId : String) : AudioCall
  | stopRec (bindingId : String) : AudioCall
  | cancel : AudioCall
deriving DecidableEq, Repr

/-- State effect of one `AudioCall` (results discarded). -/
def execAudioCall (m : AudioRecordingManager) : AudioCall → AudioRecordingManager
  | .tryStart b => (tryStartRecording m b).1
  | .stopRec b => (stopRecording m b).2
  | .cancel => cancelRecording m

/-- Runs a sequence of recording-lifecycle calls. -/
def runAudioCalls (m : AudioRecordingManager) (calls : List AudioCall) :
    AudioRecordingManager :=
  calls.foldl execAudioCall m

/-- Binding ids currently recording: derived view of `RecordingState`. -/
def recordingBindings (m : AudioRecordingManager) : List String :=
  match m.state with
  | .idle => []
  | .recording b => [b]

/-! ### Live-preview audio buffer and backoff (`managers/live_preview.rs`) -/

/-- Embeds `MAX_BUFFER_SAMPLES` (live_preview.rs:16). -/
def MAX_BUFFER_SAMPLES : Nat := 16000 * 60

/-- Embeds `MIN_AUDIO_SAMPLES` (live_preview.rs:19). -/
def MIN_AUDIO_SAMPLES : Nat := 8000

/-- Embeds `MIN_NEW_AUDIO_SAMPLES` (live_preview.rs:22). -/
def MIN_NEW_AUDIO_SAMPLES : Nat := 1600

/-- Embeds `MAX_CONSECUTIVE_FAILURES` (live_preview.rs:28). -/
def MAX_CONSECUTIVE_FAILURES : Nat := 5

/-- Embeds `CLOUD_MIN_INTERVAL_MS` (live_preview.rs:31). -/
def CLOUD_MIN_INTERVAL_MS : Nat := 3000

/-- Embeds `BACKOFF_BASE_MS` (live_preview.rs:34). -/
def BACKOFF_BASE_MS : Nat := 500

/-- Embeds `BACKOFF_MAX_MS` (live_preview.rs:37). -/
def BACKOFF_MAX_MS : Nat := 5000

/-- Embeds the buffer arithmetic of `push_audio` (live_preview.rs:246-253):
when appending would exceed `MAX_BUFFER_SAMPLES`, `drain_count =
min(overflow, current_len)` samples are drained from the front, then the
batch is appended (`buffer.extend_from_slice(samples)`). -/
def pushAudioBuffer (buffer samples : List ℚ) : List ℚ :=
  let buffer :=
    if MAX_BUFFER_SAMPLES < buffer.length + samples.length then
      let overflow := buffer.length + samples.length - MAX_BUFFER_SAMPLES
      let drainCount := min overflow buffer.length
      buffer.drop drainCount
    else buffer
  buffer ++ samples

/-- Embeds `push_audio` (live_preview.rs:230-260) including its guards: the
batch is dropped when the manager is not active, when it is stopping, or when
`audio_buffer.try_lock()` fails (`bufferLockFree = false`). -/
def pushAudio (isActive isStopping bufferLockFree : Bool) (buffer samples : List ℚ) :
    List ℚ :=
  if isActive = false then buffer
  else if isStopping then buffer
  else if bufferLockFree = false then buffer
  else pushAudioBuffer buffer samples

/-- Embeds `calculate_backoff` (live_preview.rs:305-312): zero at zero
consecutive failures, otherwise `min(BACKOFF_BASE_MS << min(failures, 4),
BACKOFF_MAX_MS)` (the shift `1 << failures.min(4)` is `2 ^ min failures 4`). -/
def calculateBackoff (failures : Nat) : Nat :=
  if failures = 0 then 0
  else min (BACKOFF_BASE_MS * 2 ^ (min failures 4)) BACKOFF_MAX_MS

/-- Embeds the interval computation of `run_worker` (live_preview.rs:338-347):
a cloud backend takes `max(base_interval, CLOUD_MIN_INTERVAL_MS)` plus the
backoff, a local backend takes `base_interval` plus the backoff. -/
def effectiveInterval (isCloud : Bool) (baseIntervalMs failures : Nat) : Nat :=
  let backoff := calculateBackoff failures
  if isCloud then max baseIntervalMs CLOUD_MIN_INTERVAL_MS + backoff
  else baseIntervalMs + backoff

/-! ### Transcription manager (`managers/transcription.rs`) -/

/-- Modelled from the spec: the settings module is not under `src/`; §4.3 and
§8 of the spec describe the idle-unload policy as either disabled, an idle
timeout of N seconds, or the special "immediately" policy. `to_seconds`
returns `none` when the policy is disabled (the watcher then never unloads)
and `some` otherwise; the watcher skips the `Immediately` value explicitly,
so its numeric image is irrelevant. -/
inductive ModelUnloadTimeout where
  | never : ModelUnloadTimeout
  | immediately : ModelUnloadTimeout
  | afterSeconds (secs : Nat) : ModelUnloadTimeout
deriving DecidableEq, Repr

/-- Modelled from the spec: see `ModelUnloadTimeout`. -/
def ModelUnloadTimeout.toSeconds : ModelUnloadTimeout → Option Nat
  | .never => none
  | .immediately => some 0
  | .afterSeconds n => some n

/-- Embeds `FormattingRules` (audio_toolkit/text.rs:330-335). -/
structure FormattingRules where
  autoLists : Bool
  verbalCommands : Bool
deriving DecidableEq, Repr

/-- The settings fields read by `transcribe` and the idle watcher
(`get_settings` snapshots; the settings store itself is external). -/
structure AppSettings where
  customWords : List String
  wordCorrectionThreshold : ℚ
  correctionDetectionEnabled : Bool
  snippetsEnabled : Bool
  snippets : List (String × String)
  autoFormatEnabled : Bool
  autoFormatLists : Bool
  verbalCommandsEnabled : Bool
  diarizationEnabled : Bool
  modelUnloadTimeout : ModelUnloadTimeout
deriving DecidableEq, Repr

/-- The five post-processing stage functions consumed by `transcribe`
(transcription.rs:731-768). The spec (§1, §6) treats them as black-box pure
functions; `apply_custom_words` further depends on external crates
(`strsim`, `natural`), so the pipeline is kept parametric in them. -/
structure TextStages where
  applyCustomWords : String → List String → ℚ → String
  filterTranscriptionOutput : String → String
  applyCorrections : String → String
  applySnippets : String → List (String × String) → String
  applyFormatting : String → FormattingRules → String

/-- Embeds the post-processing tail of `transcribe` (transcription.rs:729-768):
custom-word correction when `custom_words` is non-empty, then the
unconditional filler/stutter filter, then correction detection when enabled,
then snippet expansion when enabled and non-empty, then auto-formatting when
enabled. -/
def postProcess (st : TextStages) (s : AppSettings) (textForProcessing : String) : String :=
  let correctedResult :=
    if s.customWords ≠ [] then
      st.applyCustomWords textForProcessing s.customWords s.wordCorrectionThreshold
    else textForProcessing
  let filteredResult := st.filterTranscriptionOutput correctedResult
  let correctedText :=
    if s.correctionDetectionEnabled then st.applyCorrections filteredResult
    else filteredResult
  let snippetsResult :=
    if s.snippetsEnabled ∧ s.snippets ≠ [] then st.applySnippets correctedText s.snippets
    else correctedText
  let formattedResult :=
    if s.autoFormatEnabled then
      st.applyFormatting snippetsResult ⟨s.autoFormatLists, s.verbalCommandsEnabled⟩
    else snippetsResult
  formattedResult

/-- Stage 1 of the pipeline as a standalone conditional transformation. -/
def stageCustomWords (st : TextStages) (s : AppSettings) (t : String) : String :=
  if s.customWords ≠ [] then st.applyCustomWords t s.customWords s.wordCorrectionThreshold
  else t

/-- Stage 2: the filler/stutter filter (applied unconditionally, it has no
disabling setting in the code). -/
def stageFiller (st : TextStages) (_s : AppSettings) (t : String) : String :=
  st.filterTranscriptionOutput t

/-- Stage 3: verbal self-correction detection, gated by its setting. -/
def stageCorrections (st : TextStages) (s : AppSettings) (t : String) : String :=
  if s.correctionDetectionEnabled then st.applyCorrections t else t

/-- Stage 4: snippet expansion, gated by its setting and a non-empty list. -/
def stageSnippets (st : TextStages) (s : AppSettings) (t : String) : String :=
  if s.snippetsEnabled ∧ s.snippets ≠ [] then st.applySnippets t s.snippets else t

/-- Stage 5: auto-formatting, gated by its setting. -/
def stageFormatting (st : TextStages) (s : AppSettings) (t : String) : String :=
  if s.autoFormatEnabled then
    st.applyFormatting t ⟨s.autoFormatLists, s.verbalCommandsEnabled⟩
  else t

/-- Embeds `LoadedEngine` (transcription.rs:47-52). -/
inductive LoadedEngine where
  | whisper : LoadedEngine
  | parakeet : LoadedEngine
  | moonshine : LoadedEngine
  | groqCloud (modelId : String) : LoadedEngine
deriving DecidableEq, Repr

/-- The `TranscriptionManager` state the embedded operations touch:
`engine` is the `Arc<Mutex<Option<LoadedEngine>>>` content, `engineLockHeld`
whether that mutex is currently held by a concurrent holder (so `try_lock`
fails), `lastActivity` the `AtomicU64` milliseconds timestamp. -/
structure TMState where
  engine : Option LoadedEngine
  engineLockHeld : Bool
  lastActivity : Nat
deriving DecidableEq, Repr

/-- Embeds `maybe_unload_immediately` (transcription.rs:197-207): unloads the
model exactly when the policy is `Immediately` and a model is loaded. -/
def maybeUnloadImmediately (s : AppSettings) (st : TMState) : TMState :=
  if s.modelUnloadTimeout = .immediately ∧ st.engine.isSome then
    { st with engine := none }
  else st

/-- Embeds one iteration body of the idle-watcher thread
(transcription.rs:100-139): with no timeout configured, do nothing; with the
`Immediately` policy, skip (handled inside `transcribe`); otherwise unload
exactly when `now_ms.saturating_sub(last) > limit_seconds * 1000` and a model
is loaded (`Nat` subtraction is the saturating subtraction of the code). -/
def idleWatcherCheck (s : AppSettings) (nowMs : Nat) (st : TMState) : TMState :=
  match s.modelUnloadTimeout.toSeconds with
  | none => st
  | some limitSeconds =>
    if s.modelUnloadTimeout = .immediately then st
    else if limitSeconds * 1000 < nowMs - st.lastActivity ∧ st.engine.isSome then
      { st with engine := none }
    else st

/-! ### Diarization (`managers/diarization.rs`) and its overlay in `transcribe` -/

/-- Embeds `DiarizedSegment` (diarization.rs:19-24), timestamps in ms. -/
structure DiarizedSegment where
  startMs : Nat
  endMs : Nat
  speaker : String
deriving DecidableEq, Repr

/-- One timestamped transcript segment as produced by a backend
(`transcribe_rs` segments, already converted to ms as on
transcription.rs:642-651; the engines themselves are external). -/
structure BackendSegment where
  startMs : Nat
  endMs : Nat
  text : String
deriving DecidableEq, Repr

/-- Raw result of the backend dispatch inside `transcribe`
(`transcribe_rs::TranscriptionResult`): text plus optional segments. -/
structure BackendResult where
  text : String
  segments : Option (List BackendSegment)
deriving DecidableEq, Repr

/-- External outcomes feeding one `transcribe` / `transcribe_partial` call:
the wall clock, the backend inference result, the preview-path backend
result, whether the `DiarizationManager` is registered (`try_state`) and
`Ready` (`is_available`), whether the pyannote models are initialized, and
the pyannote segmentation-plus-embedding outcome. -/
structure TranscribeEnv where
  nowMs : Nat
  backendResult : Except String BackendResult
  previewBackendResult : Except String String
  dmPresent : Bool
  dmAvailable : Bool
  diarModelsInitialized : Bool
  diarSegmentation : Except String (List DiarizedSegment)

/-- Embeds the duration gate of `diarize` (diarization.rs:208-218): audio of
fewer than `SAMPLE_RATE * MIN_AUDIO_DURATION_SECS = 16000` samples (1.0 s at
16 kHz; the f32 division `len / 16000.0 < 1.0` agrees with `len < 16000`)
returns `Ok(vec![])`; then the models must be initialized; the segmentation
and speaker-embedding work is the external pyannote outcome. -/
def diarize (env : TranscribeEnv) (samples : List ℚ) : Except String (List DiarizedSegment) :=
  if samples.length < WHISPER_SAMPLE_RATE then .ok []
  else if env.diarModelsInitialized = false then
    .error "Models not initialized. Download the models first."
  else
    match env.diarSegmentation with
    | .error e => .error ("Segmentation failed: " ++ e)
    | .ok segs => .ok segs

/-- The `filter_map(overlap).max_by_key(overlap)` kernel of
`assign_speakers_to_segments` (diarization.rs:493-508); Rust's `max_by_key`
returns the last maximal element, hence `≤` takes the later candidate. -/
def maxOverlapSpeaker (startMs endMs : Nat) (ds : List DiarizedSegment) : Option String :=
  (ds.foldl
    (fun best d =>
      let overlapStart := max startMs d.startMs
      let overlapEnd := min endMs d.endMs
      if overlapStart < overlapEnd then
        match best with
        | none => some (overlapEnd - overlapStart, d.speaker)
        | some b =>
            if b.1 ≤ overlapEnd - overlapStart then some (overlapEnd - overlapStart, d.speaker)
            else some b
      else best)
    none).map Prod.snd

/-- Embeds `assign_speakers_to_segments` (diarization.rs:477-513). -/
def assignSpeakersToSegments (transcriptionSegments : List (Nat × Nat × String))
    (diarizationSegments : List DiarizedSegment) :
    List (Nat × Nat × String × Option String) :=
  if diarizationSegments = [] then
    transcriptionSegments.map (fun x => (x.1, x.2.1, x.2.2, none))
  else
    transcriptionSegments.map
      (fun x => (x.1, x.2.1, x.2.2, maxOverlapSpeaker x.1 x.2.1 diarizationSegments))

/-- Embeds the speaker-labelled formatting loop of `transcribe`
(transcription.rs:660-679): a `[Speaker]: ` label is inserted whenever the
speaker changes (missing speakers print as `Unknown`), preceded by a newline
except at the very start. -/
def formatLabeledSegments (labeled : List (Nat × Nat × String × Option String)) : String :=
  (labeled.foldl
    (fun acc seg =>
      let currentSpeaker := seg.2.2.2.getD "Unknown"
      if acc.2 ≠ some currentSpeaker then
        let out := if acc.1 ≠ "" then acc.1 ++ "\n" else acc.1
        (out ++ "[" ++ currentSpeaker ++ "]: " ++ seg.2.2.1, some currentSpeaker)
      else (acc.1 ++ seg.2.2.1, acc.2))
    ("", (none : Option String))).1

/-- Embeds the diarization overlay of `transcribe` (transcription.rs:617-726):
`some` replacement text only when diarization is enabled, the manager is
present and available, `diarize` succeeds with non-empty segments, and either
timestamped transcription segments exist (speaker assignment plus formatting)
or the first diarization speaker labels the whole text; every other branch
(including `diarize` errors) yields `none`, so the raw text continues through
the pipeline. -/
def diarizedTextOf (s : AppSettings) (env : TranscribeEnv) (audio : List ℚ)
    (result : BackendResult) : Option String :=
  if s.diarizationEnabled then
    if env.dmPresent then
      if env.dmAvailable then
        match diarize env audio with
        | .ok diarizationSegments =>
          if diarizationSegments ≠ [] then
            match result.segments with
            | some segs =>
              let transcriptionSegments := segs.map (fun g => (g.startMs, g.endMs, g.text))
              some (formatLabeledSegments
                (assignSpeakersToSegments transcriptionSegments diarizationSegments))
            | none =>
              match diarizationSegments.head? with
              | some firstSegment => some ("[" ++ firstSegment.speaker ++ "]: " ++ result.text)
              | none => none
          else none
        | .error _ => none
      else none
    else none
  else none

/-- Embeds `transcribe` (transcription.rs:456-793): updates `last_activity`;
empty input returns `Ok("")` after honoring the immediate-unload policy; an
absent engine (after any in-flight load finished) is an error; backend
dispatch is the external `env.backendResult`; on success the diarization
overlay may replace the text, the fixed post-processing pipeline runs, and
the immediate-unload policy is honored. Backend and diarization failures
return early without `maybe_unload_immediately`. -/
def transcribe (stages : TextStages) (s : AppSettings) (env : TranscribeEnv)
    (st : TMState) (audio : List ℚ) : Except String String × TMState :=
  let st := { st with lastActivity := env.nowMs }
  if audio = [] then (.ok "", maybeUnloadImmediately s st)
  else
    match st.engine with
    | none => (.error "Model is not loaded for transcription.", st)
    | some _ =>
      match env.backendResult with
      | .error e => (.error e, st)
      | .ok result =>
        let textForProcessing := (diarizedTextOf s env audio result).getD result.text
        let finalResult := postProcess stages s textForProcessing
        (.ok finalResult, maybeUnloadImmediately s st)

/-- The error message of the preview path's failed `try_lock`
(transcription.rs:827-830). -/
def engineBusyMessage : String := "Engine busy - skipping preview transcription"

/-- Embeds `transcribe_partial` (transcription.rs:811-938): updates
`last_activity`; empty input returns `Ok("")`; `try_lock` on the engine fails
immediately with the distinguished busy message when the mutex is held;
an absent engine is an error; otherwise the backend's raw output is trimmed
and returned with no post-processing. -/
def transcribePreview (env : TranscribeEnv) (st : TMState) (audio : List ℚ) :
    Except String String × TMState :=
  let st := { st with lastActivity := env.nowMs }
  if audio = [] then (.ok "", st)
  else if st.engineLockHeld then (.error engineBusyMessage, st)
  else
    match st.engine with
    | none => (.error "Model not loaded for partial transcription", st)
    | some _ =>
      match env.previewBackendResult with
      | .error e => (.error e, st)
      | .ok text => (.ok text.trim, st)

/-- Embeds the preview worker's busy test `error_msg.contains("Engine busy")`
(live_preview.rs:414). -/
def containsEngineBusy (errorMsg : String) : Bool :=
  decide ("Engine busy".toList <:+: errorMsg.toList)

/-- What the worker does with a failed preview transcription. -/
inductive PreviewErrorAction where
  | retryNextIteration : PreviewErrorAction
  | countFailure (failures : Nat) (fatalStop : Bool) : PreviewErrorAction
deriving DecidableEq, Repr

/-- Embeds the error branch of `run_worker` (live_preview.rs:410-434): an
"Engine busy" message is not counted as a failure and the loop just retries;
any other failure increments the counter and becomes fatal at
`MAX_CONSECUTIVE_FAILURES`. -/
def handlePreviewError (consecutiveFailures : Nat) (errorMsg : String) : PreviewErrorAction :=
  if containsEngineBusy errorMsg then .retryNextIteration
  else
    let failures := consecutiveFailures + 1
    .countFailure failures (decide (MAX_CONSECUTIVE_FAILURES ≤ failures))

/-! ### Interleaving model of one live-preview session
(`LivePreviewManager::{run_worker, stop, push_audio}`, live_preview.rs)

The worker thread, the thread calling `stop()`, and the audio callback are
modelled as a transition system driven by a scheduler-chosen action list.
Real-time waits are abstracted: the bounded join of `stop()`
(live_preview.rs:273-292) becomes a nondeterministic choice between joining
a finished worker and abandoning an unfinished one after the timeout. -/

/-- Program counter of the worker loop (`run_worker`, live_preview.rs:314-441):
`loopTop` is the head of the loop (shutdown checks, settings, interval,
condvar wait); `awaited` is just after the wait (re-check of the flags,
timing check, buffer read); `inFlight` is inside
`transcribe_partial` after the last `is_stopping` check on line 387;
`finished` is after `break`. -/
inductive WorkerPc where
  | loopTop : WorkerPc
  | awaited : WorkerPc
  | inFlight : WorkerPc
  | finished : WorkerPc
deriving DecidableEq, Repr

/-- Program counter of the thread calling `stop()`. -/
inductive StopPc where
  | idle : StopPc
  | joining : StopPc
  | returned : StopPc
deriving DecidableEq, Repr

/-- One preview event emission, tagged with whether `stop()` had already
returned when it was published (`live-preview-update` has `isFatalError =
false`; the `max_failures` `live-preview-error` has `isFatalError = true`). -/
structure PreviewEvent where
  isFatalError : Bool
  text : String
  afterStopReturn : Bool
deriving DecidableEq, Repr

/-- Outcome of one `transcribe_partial` call as seen by the worker. -/
inductive PreviewOutcome where
  | busy : PreviewOutcome
  | failed : PreviewOutcome
  | ok (text : String) : PreviewOutcome
deriving DecidableEq, Repr

/-- Shared state of one live-preview session: the manager's atomics and
buffer, both thread program counters, the published events, and whether the
join timed out (`abandoned`). -/
structure LPState where
  isActive : Bool
  isStopping : Bool
  shutdownSignal : Bool
  buffer : List ℚ
  consecutiveFailures : Nat
  workerPc : WorkerPc
  stopperPc : StopPc
  stopReturned : Bool
  abandoned : Bool
  events : List PreviewEvent
deriving DecidableEq, Repr

/-- State just after a successful `start()` (live_preview.rs:131-191):
active, all flags and counters reset, buffer cleared, worker at the loop top. -/
def lpStart : LPState :=
  { isActive := true
    isStopping := false
    shutdownSignal := false
    buffer := []
    consecutiveFailures := 0
    workerPc := .loopTop
    stopperPc := .idle
    stopReturned := false
    abandoned := false
    events := [] }

/-- Scheduler actions. `workerTop` runs the checks at the head of the loop
and the condvar wait; `workerAwake sufficientAudio` runs the post-wait
re-checks, the timing check and the buffer read (`sufficientAudio = false`
is a `continue` for a stale timer or too little audio), ending at the last
`is_stopping` check before `transcribe_partial`; `workerFinish o` is the
completion of `transcribe_partial` with outcome `o` and the worker's handling
of it; `callStop` is the body of `stop()` up to the join; `joinOk` is a join
that found the worker finished; `joinTimeout` is the expiry of
`WORKER_JOIN_TIMEOUT_MS` with the worker still running; `audioCallback` is
one `push_audio` from the audio thread (an uncontended buffer lock). -/
inductive LPAction where
  | workerTop : LPAction
  | workerAwake (sufficientAudio : Bool) : LPAction
  | workerFinish (outcome : PreviewOutcome) : LPAction
  | callStop : LPAction
  | joinOk : LPAction
  | joinTimeout : LPAction
  | audioCallback (samples : List ℚ) : LPAction
deriving DecidableEq, Repr

/-- One transition. Actions whose thread is not at the corresponding program
point leave the state unchanged (the scheduler simply cannot fire them). -/
def lpStep (s : LPState) : LPAction → LPState
  | .workerTop =>
    if s.workerPc = .loopTop then
      if s.shutdownSignal ∨ s.isStopping then { s with workerPc := .finished }
      else { s with workerPc := .awaited }
    else s
  | .workerAwake sufficientAudio =>
    if s.workerPc = .awaited then
      if s.shutdownSignal ∨ s.isStopping then { s with workerPc := .finished }
      else if sufficientAudio = false then { s with workerPc := .loopTop }
      else if s.isStopping then { s with workerPc := .finished }
      else { s with workerPc := .inFlight }
    else s
  | .workerFinish outcome =>
    if s.workerPc = .inFlight then
      match outcome with
      | .busy => { s with workerPc := .loopTop }
      | .ok text =>
        let s := { s with consecutiveFailures := 0 }
        if text ≠ "" then
          { s with
            events := s.events ++
              [{ isFatalError := false, text := text, afterStopReturn := s.stopReturned }]
            workerPc := .loopTop }
        else { s with workerPc := .loopTop }
      | .failed =>
        let failures := s.consecutiveFailures + 1
        let s := { s with consecutiveFailures := failures }
        if MAX_CONSECUTIVE_FAILURES ≤ failures then
          { s with
            events := s.events ++
              [{ isFatalError := true, text := "max_failures",
                 afterStopReturn := s.stopReturned }]
            workerPc := .finished }
        else { s with workerPc := .loopTop }
    else s
  | .callStop =>
    if s.stopperPc = .idle then
      if s.isActive then
        { s with isStopping := true, isActive := false, shutdownSignal := true,
                 stopperPc := .joining }
      else
        { s with stopperPc := .returned, stopReturned := true }
    else s
  | .joinOk =>
    if s.stopperPc = .joining ∧ s.workerPc = .finished then
      { s with buffer := [], isStopping := false, stopperPc := .returned,
               stopReturned := true, abandoned := false }
    else s
  | .joinTimeout =>
    if s.stopperPc = .joining ∧ s.workerPc ≠ .finished then
      { s with buffer := [], isStopping := false, stopperPc := .returned,
               stopReturned := true, abandoned := true }
    else s
  | .audioCallback samples =>
    { s with buffer := pushAudio s.isActive s.isStopping true s.buffer samples }

/-- Runs a schedule from a state. -/
def lpRun (s : LPState) (schedule : List LPAction) : LPState :=
  schedule.foldl lpStep s

/-! ### Concrete inputs used by witnesses and counterexamples -/

/-- Concrete stage functions that tag the text with one letter per stage, so
a pipeline run records the exact order in which the stages fired. -/
def witnessStages : TextStages :=
  { applyCustomWords := fun t _ _ => t ++ "C"
    filterTranscriptionOutput := fun t => t ++ "F"
    applyCorrections := fun t => t ++ "R"
    applySnippets := fun t _ => t ++ "S"
    applyFormatting := fun t _ => t ++ "A" }

/-- Concrete settings enabling every post-processing stage. -/
def witnessSettings : AppSettings :=
  { customWords := ["paperflow"]
    wordCorrectionThreshold := 0
    correctionDetectionEnabled := true
    snippetsEnabled := true
    snippets := [("sig", "Best regards")]
    autoFormatEnabled := true
    autoFormatLists := true
    verbalCommandsEnabled := true
    diarizationEnabled := false
    modelUnloadTimeout := .never }

/-- Environment of a transcription whose backend inference fails. -/
def failingBackendEnv : TranscribeEnv :=
  { nowMs := 5000
    backendResult := .error "Whisper transcription failed: inference error"
    previewBackendResult := .error "Whisper partial transcription failed: inference error"
    dmPresent := false
    dmAvailable := false
    diarModelsInitialized := false
    diarSegmentation := .ok [] }

/-- Environment of a successful transcription with a diarization manager
present and ready but audio too short for diarization. -/
def shortAudioEnv : TranscribeEnv :=
  { nowMs := 7000
    backendResult := .ok { text := "hello world", segments := none }
    previewBackendResult := .ok " hello "
    dmPresent := true
    dmAvailable := true
    diarModelsInitialized := true
    diarSegmentation := .ok [] }

/-- Schedule in which `stop()` times out while the worker is still inside
`transcribe_partial`; the abandoned worker then finishes and publishes. -/
def lpBadSchedule : List LPAction :=
  [.workerTop, .workerAwake true, .callStop, .joinTimeout, .workerFinish (.ok "hello")]

/-- Schedule in which the worker observes the shutdown flag and exits, and
`stop()` joins it within the timeout. -/
def lpGoodSchedule : List LPAction :=
  [.callStop, .workerTop, .joinOk]

/-- All events in the list were published before `stop()` returned. -/
def lpAllEarly (events : List PreviewEvent) : Prop :=
  ∀ e ∈ events, e.afterStopReturn = false

/-- Inductive invariant of the live-preview session model: the session is
active exactly while `stop()` has not been entered; once `stop()` returned
the buffer is empty; if the worker was joined (not abandoned) it is finished
and every published event predates the return of `stop()`. -/
def lpInv (s : LPState) : Prop :=
  (s.isActive = true ↔ s.stopperPc = .idle) ∧
  (s.stopReturned = true → s.stopperPc = .returned) ∧
  (s.stopReturned = true → s.buffer = []) ∧
  (s.stopReturned = true → s.abandoned = false → s.workerPc = .finished) ∧
  (s.abandoned = false → lpAllEarly s.events) ∧
  (s.abandoned = true → s.stopperPc = .returned)

/-! ## Theorems -/

/-- Helper: the samples returned by a matching `stop_recording` with a working
recorder, before and after the padding rule. -/
theorem stopRecording_matching_fst (m : AudioRecordingManager) (bid : String)
    (rec : RecorderState) (hstate : m.state = .recording bid)
    (hrec : m.recorder = some rec) (hok : m.recStopOk = true) :
    (stopRecording m bid).1 =
      if rec.buf.length < WHISPER_SAMPLE_RATE ∧ 0 < rec.buf.length then
        some (rec.buf ++ List.replicate (WHISPER_SAMPLE_RATE * 5 / 4 - rec.buf.length) 0)
      else some rec.buf := by
  obtain ⟨state, mode, recorder, isOpen, isRecording, didMute, dOk, sOk, stOk⟩ := m
  simp only at hstate hrec hok
  subst hstate hrec hok
  cases mode <;> simp [stopRecording, stopMicrophoneStream] <;> split <;> rfl

/-- C3: for a `stop_recording` call whose binding matches the active
recording, an accumulated sample count strictly between 0 and 16000 yields a
buffer of the original samples padded with zeros to exactly 20000 samples; an
empty accumulation stays length 0; and 16000 samples or more are returned
unpadded. -/
theorem stop_recording_min_length_padding (m : AudioRecordingManager) (bid : String)
    (rec : RecorderState) (hstate : m.state = .recording bid)
    (hrec : m.recorder = some rec) (hok : m.recStopOk = true) :
    ((0 < rec.buf.length ∧ rec.buf.length < 16000) →
      (stopRecording m bid).1 =
        some (rec.buf ++ List.replicate (20000 - rec.buf.length) 0) ∧
      (rec.buf ++ List.replicate (20000 - rec.buf.length) (0 : ℚ)).length = 20000) ∧
    (rec.buf.length = 0 → (stopRecording m bid).1 = some rec.buf) ∧
    (16000 ≤ rec.buf.length → (stopRecording m bid).1 = some rec.buf) := by
  have h := stopRecording_matching_fst m bid rec hstate hrec hok
  refine ⟨fun hn => ?_, fun hn => ?_, fun hn => ?_⟩
  · constructor
    · rw [h, if_pos ⟨hn.2, hn.1⟩]
      norm_num [WHISPER_SAMPLE_RATE]
    · simp only [List.length_append, List.length_replicate]
      omega
  · rw [h, if_neg]
    omega
  · rw [h, if_neg]
    simp only [WHISPER_SAMPLE_RATE]
    omega

/-- C3 witness: a matching stop with 3 accumulated samples returns exactly
20000 samples. -/
theorem stop_recording_min_length_padding_witness :
    (stopRecording
        { state := .recording "a", mode := .alwaysOn, recorder := some ⟨[1, 2, 3]⟩,
          isOpen := true, isRecording := true, didMute := false, deviceOk := true,
          recStartOk := true, recStopOk := true } "a").1 =
      some ([1, 2, 3] ++ List.replicate (20000 - 3) (0 : ℚ)) := by
  have h := (stop_recording_min_length_padding
    { state := .recording "a", mode := .alwaysOn, recorder := some ⟨[1, 2, 3]⟩,
      isOpen := true, isRecording := true, didMute := false, deviceOk := true,
      recStartOk := true, recStopOk := true } "a" ⟨[1, 2, 3]⟩ rfl rfl rfl).1
  exact (h (by norm_num)).1

/-- C10: a `stop_recording` call made while idle, or whose binding does not
match the active recording, returns `None` and leaves the whole manager state
(recording state, recorder and its samples, stream-open flag, microphone
mode, mute and environment flags) unchanged. -/
theorem stop_recording_frame (m : AudioRecordingManager) (bid : String) :
    (m.state = .idle → stopRecording m bid = (none, m)) ∧
    (∀ b, m.state = .recording b → b ≠ bid → stopRecording m bid = (none, m)) := by
  constructor
  · intro h
    simp [stopRecording, h]
  · intro b hb hne
    simp [stopRecording, hb, hne]

/-- C10 witness: a mismatched stop returns `None` and changes nothing. -/
theorem stop_recording_frame_witness :
    stopRecording
        { state := .recording "a", mode := .onDemand, recorder := some ⟨[5]⟩,
          isOpen := true, isRecording := true, didMute := true, deviceOk := true,
          recStartOk := true, recStopOk := true } "b" =
      (none,
        { state := .recording "a", mode := .onDemand, recorder := some ⟨[5]⟩,
          isOpen := true, isRecording := true, didMute := true, deviceOk := true,
          recStartOk := true, recStopOk := true }) := by
  exact (stop_recording_frame
    { state := .recording "a", mode := .onDemand, recorder := some ⟨[5]⟩,
      isOpen := true, isRecording := true, didMute := true, deviceOk := true,
      recStartOk := true, recStopOk := true } "b").2 "a" rfl (by decide)

/-- C4: across any sequence of recording-lifecycle calls, the manager is
never recording for two different binding ids at once (the derived recording
set never has more than one element), and a `try_start_recording` issued
while a recording is active returns `false` without touching the state. -/
theorem at_most_one_active_recording :
    (∀ (m0 : AudioRecordingManager) (calls : List AudioCall),
        (recordingBindings (runAudioCalls m0 calls)).length ≤ 1) ∧
    (∀ (m0 : AudioRecordingManager) (calls : List AudioCall) (b1 b2 : String),
        (runAudioCalls m0 calls).state = .recording b1 →
        (runAudioCalls m0 calls).state = .recording b2 → b1 = b2) ∧
    (∀ (m : AudioRecordingManager) (bid b : String),
        m.state = .recording b → tryStartRecording m bid = (m, false)) := by
  refine ⟨fun m0 calls => ?_, fun m0 calls b1 b2 h1 h2 => ?_, fun m bid b h => ?_⟩
  · cases h : (runAudioCalls m0 calls).state <;> simp [recordingBindings, h]
  · rw [h1] at h2
    exact (RecordingState.recording.injEq _ _).mp h2
  · simp [tryStartRecording, h]

/-- C4 witness: a second `try_start_recording` during an active recording
returns `false`, and a start-stop-start sequence keeps the recording set at
size at most one. -/
theorem at_most_one_active_recording_witness :
    (recordingBindings (runAudioCalls
        { state := .idle, mode := .alwaysOn, recorder := some ⟨[]⟩, isOpen := true,
          isRecording := false, didMute := false, deviceOk := true, recStartOk := true,
          recStopOk := true }
        [.tryStart "a", .tryStart "b", .stopRec "a", .tryStart "b"])).length ≤ 1 ∧
    tryStartRecording
        { state := .recording "a", mode := .alwaysOn, recorder := some ⟨[]⟩, isOpen := true,
          isRecording := true, didMute := false, deviceOk := true, recStartOk := true,
          recStopOk := true } "b" =
      ({ state := .recording "a", mode := .alwaysOn, recorder := some ⟨[]⟩, isOpen := true,
         isRecording := true, didMute := false, deviceOk := true, recStartOk := true,
         recStopOk := true }, false) := by
  constructor
  · exact at_most_one_active_recording.1 _ _
  · exact at_most_one_active_recording.2.2 _ "b" "a" rfl

/-- Helper: one `push_audio` whose batch is within the cap leaves the buffer
within the cap (whatever the previous buffer length was). -/
theorem pushAudioBuffer_length_le (buffer samples : List ℚ)
    (h : samples.length ≤ MAX_BUFFER_SAMPLES) :
    (pushAudioBuffer buffer samples).length ≤ MAX_BUFFER_SAMPLES := by
  unfold pushAudioBuffer
  split
  · simp only [List.length_append, List.length_drop]
    omega
  · simp only [List.length_append]
    omega

/-- C5 counterexample: the claim fails for a batch larger than the cap — a
single `push_audio` of `MAX_BUFFER_SAMPLES + 1` samples into the empty buffer
(active session, not stopping, uncontended lock) leaves the buffer strictly
above `MAX_BUFFER_SAMPLES`, because `drain_count` is bounded by the current
length before the batch is appended. -/
theorem audio_buffer_cap_counterexample :
    MAX_BUFFER_SAMPLES <
      (pushAudio true false true [] (List.replicate (MAX_BUFFER_SAMPLES + 1) (0 : ℚ))).length := by
  have hnil : ∀ s : List ℚ, pushAudioBuffer [] s = s := by
    intro s
    unfold pushAudioBuffer
    split <;> simp
  have heq : pushAudio true false true [] (List.replicate (MAX_BUFFER_SAMPLES + 1) (0 : ℚ)) =
      List.replicate (MAX_BUFFER_SAMPLES + 1) (0 : ℚ) := hnil _
  rw [heq, List.length_replicate]
  omega

/-- C5 amended: provided every pushed batch has at most `MAX_BUFFER_SAMPLES`
samples, the buffer length never exceeds `MAX_BUFFER_SAMPLES` after any call
in any sequence of `push_audio` calls; and whenever an append would exceed
the cap, the result is a suffix of the old buffer (oldest samples evicted
from the front first) followed by the new batch. -/
theorem audio_buffer_sliding_window :
    (∀ buffer samples : List ℚ, samples.length ≤ MAX_BUFFER_SAMPLES →
        (pushAudioBuffer buffer samples).length ≤ MAX_BUFFER_SAMPLES) ∧
    (∀ batches : List (List ℚ), (∀ b ∈ batches, b.length ≤ MAX_BUFFER_SAMPLES) →
        ∀ init : List ℚ, init.length ≤ MAX_BUFFER_SAMPLES →
        (batches.foldl pushAudioBuffer init).length ≤ MAX_BUFFER_SAMPLES) ∧
    (∀ buffer samples : List ℚ, MAX_BUFFER_SAMPLES < buffer.length + samples.length →
        pushAudioBuffer buffer samples =
          buffer.drop (min (buffer.length + samples.length - MAX_BUFFER_SAMPLES) buffer.length)
            ++ samples) := by
  refine ⟨pushAudioBuffer_length_le, fun batches => ?_, fun buffer samples h => ?_⟩
  · induction batches with
    | nil => intro _ init hinit; simpa using hinit
    | cons b bs ih =>
      intro hall init _
      exact ih (fun x hx => hall x (List.mem_cons_of_mem b hx))
        (pushAudioBuffer init b)
        (pushAudioBuffer_length_le init b (hall b (List.mem_cons_self b bs)))
  · unfold pushAudioBuffer
    rw [if_pos h]

/-- C5 amended witness: pushing two batches of 1 and `MAX_BUFFER_SAMPLES`
samples keeps the buffer at the cap, and the second push evicts from the
front. -/
theorem audio_buffer_sliding_window_witness :
    (((List.replicate 1 (0 : ℚ)) :: [List.replicate MAX_BUFFER_SAMPLES (0 : ℚ)]).foldl
        pushAudioBuffer []).length ≤ MAX_BUFFER_SAMPLES ∧
    pushAudioBuffer (List.replicate 1 (0 : ℚ)) (List.replicate MAX_BUFFER_SAMPLES (0 : ℚ)) =
      (List.replicate 1 (0 : ℚ)).drop
          (min (1 + MAX_BUFFER_SAMPLES - MAX_BUFFER_SAMPLES) 1)
        ++ List.replicate MAX_BUFFER_SAMPLES (0 : ℚ) := by
  constructor
  · refine audio_buffer_sliding_window.2.1 _ (fun b hb => ?_) [] (by simp)
    simp only [List.mem_cons, List.mem_singleton, List.not_mem_nil, or_false] at hb
    rcases hb with h | h
    · rw [h, List.length_replicate]
      unfold MAX_BUFFER_SAMPLES
      omega
    · rw [h, List.length_replicate]
  · have h := audio_buffer_sliding_window.2.2 (List.replicate 1 (0 : ℚ))
      (List.replicate MAX_BUFFER_SAMPLES (0 : ℚ))
      (by rw [List.length_replicate, List.length_replicate]; omega)
    rwa [List.length_replicate, List.length_replicate] at h

/-- Helper: from four consecutive failures on, the backoff sits at its cap. -/
theorem calculateBackoff_of_four_le (failures : Nat) (h : 4 ≤ failures) :
    calculateBackoff failures = BACKOFF_MAX_MS := by
  unfold calculateBackoff
  rw [if_neg (by omega), min_eq_right h]
  decide

/-- C8: the worker's effective wait interval is `max(interval, 3000 ms) +
backoff` for a cloud backend (hence at least 3000 ms whatever the configured
interval) and `interval + backoff` for a local backend; the backoff is 0 at
zero consecutive failures, doubles with each further failure, and is capped
at `BACKOFF_MAX_MS`. -/
theorem preview_interval_backoff :
    (∀ baseIntervalMs failures : Nat,
        effectiveInterval true baseIntervalMs failures =
          max baseIntervalMs CLOUD_MIN_INTERVAL_MS + calculateBackoff failures ∧
        effectiveInterval false baseIntervalMs failures =
          baseIntervalMs + calculateBackoff failures ∧
        CLOUD_MIN_INTERVAL_MS ≤ effectiveInterval true baseIntervalMs failures) ∧
    calculateBackoff 0 = 0 ∧
    (∀ failures : Nat, 1 ≤ failures →
        calculateBackoff (failures + 1) = min (2 * calculateBackoff failures) BACKOFF_MAX_MS) ∧
    (∀ failures : Nat, calculateBackoff failures ≤ BACKOFF_MAX_MS) := by
  refine ⟨fun base failures => ⟨rfl, rfl, ?_⟩, rfl, fun failures h1 => ?_, fun failures => ?_⟩
  · unfold effectiveInterval
    simp only [if_pos]
    exact le_add_right (le_max_right _ _)
  · match failures, h1 with
    | 1, _ => decide
    | 2, _ => decide
    | 3, _ => decide
    | (n + 4), _ =>
      rw [calculateBackoff_of_four_le (n + 4) (by omega),
        calculateBackoff_of_four_le (n + 4 + 1) (by omega)]
      decide
  · unfold calculateBackoff
    split
    · simp [BACKOFF_MAX_MS]
    · exact min_le_right _ _

/-- C8 witness: with interval 1000 ms and a cloud backend, the effective wait
is 3000 ms at zero failures and 4000 ms after one failure. -/
theorem preview_interval_backoff_witness :
    effectiveInterval true 1000 0 = max 1000 CLOUD_MIN_INTERVAL_MS + calculateBackoff 0 ∧
    CLOUD_MIN_INTERVAL_MS ≤ effectiveInterval true 1000 1 ∧
    calculateBackoff 2 = min (2 * calculateBackoff 1) BACKOFF_MAX_MS := by
  exact ⟨(preview_interval_backoff.1 1000 0).1,
    (preview_interval_backoff.1 1000 1).2.2,
    preview_interval_backoff.2.2.1 1 le_rfl⟩

/-- C1: whenever the engine mutex is held by a concurrent `transcribe` call,
`transcribe_partial` on non-empty audio fails immediately with the
distinguished "Engine busy" message (not a generic failure); the preview
worker's busy test recognizes exactly that message and retries without
counting a failure. -/
theorem preview_transcription_engine_busy (env : TranscribeEnv) (st : TMState)
    (audio : List ℚ) (h1 : audio ≠ []) (h2 : st.engineLockHeld = true) :
    (transcribePreview env st audio).1 = .error engineBusyMessage ∧
    containsEngineBusy engineBusyMessage = true ∧
    (∀ failures : Nat, handlePreviewError failures engineBusyMessage = .retryNextIteration) := by
  refine ⟨?_, by decide, fun failures => ?_⟩
  · unfold transcribePreview
    rw [if_neg h1]
    simp [h2]
  · unfold handlePreviewError
    rw [if_pos (by decide)]

/-- C1 witness: with the lock held by a concurrent finalization, a one-sample
preview request returns the busy error and the worker retries. -/
theorem preview_transcription_engine_busy_witness :
    (transcribePreview shortAudioEnv ⟨some .whisper, true, 0⟩ [0]).1 =
      .error engineBusyMessage ∧
    handlePreviewError 3 engineBusyMessage = .retryNextIteration := by
  have h := preview_transcription_engine_busy shortAudioEnv ⟨some .whisper, true, 0⟩ [0]
    (by decide) rfl
  exact ⟨h.1, h.2.2 3⟩

/-- C2: the post-processing pipeline of `transcribe` is exactly the
composition, in this fixed order, of custom-word correction, filler/stutter
filtering, verbal self-correction detection, snippet expansion and
auto-formatting, each conditional stage firing if and only if its setting
enables it; with every stage enabled, the filler filter is applied strictly
before correction detection. -/
theorem postprocessing_stage_order (st : TextStages) (s : AppSettings) (t : String) :
    postProcess st s t =
      stageFormatting st s (stageSnippets st s (stageCorrections st s
        (stageFiller st s (stageCustomWords st s t)))) ∧
    (s.customWords ≠ [] → s.correctionDetectionEnabled = true → s.snippetsEnabled = true →
      s.snippets ≠ [] → s.autoFormatEnabled = true →
      postProcess st s t =
        st.applyFormatting
          (st.applySnippets
            (st.applyCorrections
              (st.filterTranscriptionOutput
                (st.applyCustomWords t s.customWords s.wordCorrectionThreshold)))
            s.snippets)
          ⟨s.autoFormatLists, s.verbalCommandsEnabled⟩) := by
  constructor
  · rfl
  · intro h1 h2 h3 h4 h5
    simp [postProcess, h1, h2, h3, h4, h5]

/-- C2 witness: with tagging stages and everything enabled, the pipeline
stamps the stages in the claimed order. -/
theorem postprocessing_stage_order_witness :
    postProcess witnessStages witnessSettings "t" = "tCFRSA" := by
  have h := (postprocessing_stage_order witnessStages witnessSettings "t").2
    (by decide) rfl rfl (by decide) rfl
  rw [h]
  rfl

/-- Helper: with the `Immediately` policy, the state after
`maybe_unload_immediately` has no engine. -/
theorem maybeUnloadImmediately_engine (s : AppSettings) (st : TMState)
    (h : s.modelUnloadTimeout = .immediately) :
    (maybeUnloadImmediately s st).engine = none := by
  unfold maybeUnloadImmediately
  cases he : st.engine with
  | none => simp [he]
  | some e => simp [he, h]

/-- C7 counterexample: with the `Immediately` policy, a transcription whose
backend fails returns its error with the model still loaded — no synchronous
unload happens on the failure path — and the periodic check (which skips the
`Immediately` policy) leaves it loaded as well, contradicting "unloaded
synchronously right after each transcription completes, whether the
transcription succeeded or not". -/
theorem immediate_unload_failure_counterexample :
    (transcribe witnessStages { witnessSettings with modelUnloadTimeout := .immediately }
        failingBackendEnv ⟨some .whisper, false, 0⟩ [0]).1 =
      .error "Whisper transcription failed: inference error" ∧
    ((transcribe witnessStages { witnessSettings with modelUnloadTimeout := .immediately }
        failingBackendEnv ⟨some .whisper, false, 0⟩ [0]).2).engine = some .whisper ∧
    idleWatcherCheck { witnessSettings with modelUnloadTimeout := .immediately } 999999999
        ((transcribe witnessStages { witnessSettings with modelUnloadTimeout := .immediately }
          failingBackendEnv ⟨some .whisper, false, 0⟩ [0]).2) =
      (transcribe witnessStages { witnessSettings with modelUnloadTimeout := .immediately }
        failingBackendEnv ⟨some .whisper, false, 0⟩ [0]).2 := by
  exact ⟨rfl, rfl, rfl⟩

/-- C7 amended: the periodic idle check leaves the model loaded while
`now - lastActivity ≤ N * 1000` ms, unloads it on a check past that
threshold, and never unloads under the `Immediately` policy; under the
`Immediately` policy the model is instead unloaded synchronously whenever
`transcribe` returns a result (empty input or success) — after a failed
transcription it stays loaded (see the counterexample). -/
theorem idle_eviction_policy (s : AppSettings) (nowMs limitSeconds : Nat) (st : TMState)
    (stages : TextStages) (env : TranscribeEnv) (audio : List ℚ) :
    (s.modelUnloadTimeout.toSeconds = some limitSeconds →
      s.modelUnloadTimeout ≠ .immediately →
      nowMs - st.lastActivity ≤ limitSeconds * 1000 →
      idleWatcherCheck s nowMs st = st) ∧
    (s.modelUnloadTimeout.toSeconds = some limitSeconds →
      s.modelUnloadTimeout ≠ .immediately →
      limitSeconds * 1000 < nowMs - st.lastActivity → st.engine.isSome →
      (idleWatcherCheck s nowMs st).engine = none) ∧
    (s.modelUnloadTimeout = .immediately → idleWatcherCheck s nowMs st = st) ∧
    (s.modelUnloadTimeout = .immediately →
      ∀ resultText, (transcribe stages s env st audio).1 = .ok resultText →
        ((transcribe stages s env st audio).2).engine = none) := by
  refine ⟨fun hsec himm hle => ?_, fun hsec himm hlt hload => ?_, fun himm => ?_,
    fun himm resultText hok => ?_⟩
  · have h1 : ¬(limitSeconds * 1000 < nowMs - st.lastActivity ∧ st.engine.isSome = true) :=
      fun hcon => absurd hcon.1 (by omega)
    simp [idleWatcherCheck, hsec, himm, h1]
  · simp [idleWatcherCheck, hsec, himm, hlt, hload]
  · unfold idleWatcherCheck
    rw [himm]
    rfl
  · unfold transcribe at hok ⊢
    by_cases hemp : audio = []
    · rw [if_pos hemp]
      exact maybeUnloadImmediately_engine s _ himm
    · rw [if_neg hemp] at hok ⊢
      cases he : st.engine with
      | none => simp [he] at hok
      | some e =>
        simp only [he] at hok ⊢
        cases hb : env.backendResult with
        | error msg => simp [hb] at hok
        | ok result =>
          simp only [hb]
          exact maybeUnloadImmediately_engine s _ himm

/-- C7 witness: a 90-second idle gap under a 60-second policy unloads; a
30-second gap does not; a successful transcription under `Immediately`
unloads right away. -/
theorem idle_eviction_policy_witness :
    idleWatcherCheck { witnessSettings with modelUnloadTimeout := .afterSeconds 60 } 30000
        ⟨some .whisper, false, 0⟩ =
      ⟨some .whisper, false, 0⟩ ∧
    (idleWatcherCheck { witnessSettings with modelUnloadTimeout := .afterSeconds 60 } 90000
        ⟨some .whisper, false, 0⟩).engine = none ∧
    ((transcribe witnessStages { witnessSettings with modelUnloadTimeout := .immediately }
        shortAudioEnv ⟨some .whisper, false, 0⟩ [0]).2).engine = none := by
  refine ⟨?_, ?_, ?_⟩
  · exact (idle_eviction_policy { witnessSettings with modelUnloadTimeout := .afterSeconds 60 }
      30000 60 ⟨some .whisper, false, 0⟩ witnessStages shortAudioEnv [0]).1 rfl
      (by decide) (by decide)
  · exact (idle_eviction_policy { witnessSettings with modelUnloadTimeout := .afterSeconds 60 }
      90000 60 ⟨some .whisper, false, 0⟩ witnessStages shortAudioEnv [0]).2.1 rfl
      (by decide) (by decide) rfl
  · exact (idle_eviction_policy { witnessSettings with modelUnloadTimeout := .immediately }
      0 0 ⟨some .whisper, false, 0⟩ witnessStages shortAudioEnv [0]).2.2.2 rfl
      _ rfl

/-- Helper: every branch of the diarization overlay in which `diarize`
returned no segments or failed yields no replacement text. -/
theorem diarizedTextOf_eq_none (s : AppSettings) (env : TranscribeEnv) (audio : List ℚ)
    (result : BackendResult)
    (h : diarize env audio = .ok [] ∨ ∃ e, diarize env audio = .error e) :
    diarizedTextOf s env audio result = none := by
  unfold diarizedTextOf
  rcases h with h | ⟨e, h⟩ <;>
    · rw [h]
      split <;> simp

/-- C9: audio shorter than the minimum diarization duration makes `diarize`
return an empty segment list (not an error); and whenever `diarize` returns
no segments or fails, `transcribe` with diarization enabled produces exactly
the same result and state as with diarization disabled — a diarization
failure never fails or alters the transcription. -/
theorem diarization_fallback (stages : TextStages) (s : AppSettings) (env : TranscribeEnv)
    (st : TMState) (audio : List ℚ) :
    (audio.length < WHISPER_SAMPLE_RATE → diarize env audio = .ok []) ∧
    ((diarize env audio = .ok [] ∨ ∃ e, diarize env audio = .error e) →
      transcribe stages s env st audio =
        transcribe stages { s with diarizationEnabled := false } env st audio) := by
  constructor
  · intro h
    unfold diarize
    rw [if_pos h]
  · intro h
    unfold transcribe
    by_cases hemp : audio = []
    · rw [if_pos hemp, if_pos hemp]
      rfl
    · rw [if_neg hemp, if_neg hemp]
      cases st.engine with
      | none => rfl
      | some e =>
        cases env.backendResult with
        | error msg => rfl
        | ok result =>
          have hd1 := diarizedTextOf_eq_none s env audio result h
          have hd2 := diarizedTextOf_eq_none { s with diarizationEnabled := false }
            env audio result h
          simp [hd1, hd2, postProcess, maybeUnloadImmediately]

/-- C9 witness: one-sample audio (below the 16000-sample minimum) diarizes to
no segments, and the enabled and disabled pipelines agree on it. -/
theorem diarization_fallback_witness :
    diarize shortAudioEnv [0] = .ok [] ∧
    transcribe witnessStages { witnessSettings with diarizationEnabled := true }
        shortAudioEnv ⟨some .whisper, false, 0⟩ [0] =
      transcribe witnessStages
        { { witnessSettings with diarizationEnabled := true } with diarizationEnabled := false }
        shortAudioEnv ⟨some .whisper, false, 0⟩ [0] := by
  have h := diarization_fallback witnessStages
    { witnessSettings with diarizationEnabled := true } shortAudioEnv
    ⟨some .whisper, false, 0⟩ [0]
  exact ⟨h.1 (by decide), h.2 (Or.inl (h.1 (by decide)))⟩

/-- Helper: the invariant holds right after `start()`. -/
theorem lpInv_start : lpInv lpStart := by
  refine ⟨by simp [lpStart], ?_, ?_, ?_, ?_, ?_⟩ <;> simp [lpStart, lpAllEarly]

/-- Helper: every scheduler action preserves the session invariant. -/
theorem lpInv_step (s : LPState) (a : LPAction) (h : lpInv s) : lpInv (lpStep s a) := by
  obtain ⟨h1, h2, h3, h4, h5, h6⟩ := h
  cases a with
  | workerTop =>
    simp only [lpStep]
    split
    · split
      · exact ⟨h1, h2, h3, fun _ _ => rfl, h5, h6⟩
      · next hpc _ =>
        refine ⟨h1, h2, h3, fun hr hab => ?_, h5, h6⟩
        exact absurd (hpc.symm.trans (h4 hr hab)) (by decide)
    · exact ⟨h1, h2, h3, h4, h5, h6⟩
  | workerAwake sufficientAudio =>
    simp only [lpStep]
    split
    · next hpc =>
      have hcon : s.stopReturned = true → s.abandoned = false → False := fun hr hab =>
        absurd (hpc.symm.trans (h4 hr hab)) (by decide)
      split
      · exact ⟨h1, h2, h3, fun _ _ => rfl, h5, h6⟩
      · split
        · exact ⟨h1, h2, h3, fun hr hab => absurd (hcon hr hab) not_false, h5, h6⟩
        · split
          · exact ⟨h1, h2, h3, fun _ _ => rfl, h5, h6⟩
          · exact ⟨h1, h2, h3, fun hr hab => absurd (hcon hr hab) not_false, h5, h6⟩
    · exact ⟨h1, h2, h3, h4, h5, h6⟩
  | workerFinish outcome =>
    simp only [lpStep]
    split
    · next hpc =>
      have hearly : s.abandoned = false → s.stopReturned = false := by
        intro hab
        cases hr : s.stopReturned with
        | false => rfl
        | true => exact absurd (hpc.symm.trans (h4 hr hab)) (by decide)
      have hcon : s.stopReturned = true → s.abandoned = false → False := fun hr hab =>
        absurd (hpc.symm.trans (h4 hr hab)) (by decide)
      split
      · exact ⟨h1, h2, h3, fun hr hab => absurd (hcon hr hab) not_false, h5, h6⟩
      · split
        · refine ⟨h1, h2, h3, fun hr hab => absurd (hcon hr hab) not_false, ?_, h6⟩
          intro hab e he
          rcases List.mem_append.mp he with he | he
          · exact h5 hab e he
          · rcases List.mem_singleton.mp he with rfl
            exact hearly hab
        · exact ⟨h1, h2, h3, fun hr hab => absurd (hcon hr hab) not_false, h5, h6⟩
      · split
        · refine ⟨h1, h2, h3, fun _ _ => rfl, ?_, h6⟩
          intro hab e he
          rcases List.mem_append.mp he with he | he
          · exact h5 hab e he
          · rcases List.mem_singleton.mp he with rfl
            exact hearly hab
        · exact ⟨h1, h2, h3, fun hr hab => absurd (hcon hr hab) not_false, h5, h6⟩
    · exact ⟨h1, h2, h3, h4, h5, h6⟩
  | callStop =>
    simp only [lpStep]
    split
    · next hguard =>
      split
      · next hact =>
        refine ⟨by simp, fun hr => absurd ((h2 hr).symm.trans hguard) (by decide),
          h3, h4, h5, fun hab => absurd ((h6 hab).symm.trans hguard) (by decide)⟩
      · next hact =>
        exact absurd (h1.mpr hguard) (by simp_all)
    · exact ⟨h1, h2, h3, h4, h5, h6⟩
  | joinOk =>
    simp only [lpStep]
    split
    · next hguard =>
      have hact : s.isActive = false := by
        cases ha : s.isActive with
        | false => rfl
        | true => exact absurd ((h1.mp ha).symm.trans hguard.1) (by decide)
      have hab : s.abandoned = false := by
        cases hb : s.abandoned with
        | false => rfl
        | true => exact absurd ((h6 hb).symm.trans hguard.1) (by decide)
      exact ⟨by simp [hact], fun _ => rfl, fun _ => rfl, fun _ _ => hguard.2,
        fun _ => h5 hab, fun hcon => absurd hcon (by simp)⟩
    · exact ⟨h1, h2, h3, h4, h5, h6⟩
  | joinTimeout =>
    simp only [lpStep]
    split
    · next hguard =>
      have hact : s.isActive = false := by
        cases ha : s.isActive with
        | false => rfl
        | true => exact absurd ((h1.mp ha).symm.trans hguard.1) (by decide)
      exact ⟨by simp [hact], fun _ => rfl, fun _ => rfl,
        fun _ hcon => absurd hcon (by simp), fun hcon => absurd hcon (by simp),
        fun _ => rfl⟩
    · exact ⟨h1, h2, h3, h4, h5, h6⟩
  | audioCallback samples =>
    simp only [lpStep]
    refine ⟨h1, h2, fun hr => ?_, h4, h5, h6⟩
    have hact : s.isActive = false := by
      cases ha : s.isActive with
      | false => rfl
      | true => exact absurd ((h1.mp ha).symm.trans (h2 hr)) (by decide)
    simp [pushAudio, hact, h3 hr]

/-- Helper: the invariant holds after any schedule from the started session. -/
theorem lpInv_run (schedule : List LPAction) : lpInv (lpRun lpStart schedule) := by
  have hgen : ∀ (sched : List LPAction) (s : LPState), lpInv s → lpInv (sched.foldl lpStep s) := by
    intro sched
    induction sched with
    | nil => intro s hs; exact hs
    | cons a rest ih => intro s hs; exact ih (lpStep s a) (lpInv_step s a hs)
  exact hgen schedule lpStart lpInv_start

/-- C6 counterexample: the claim fails when the worker outlives the join
timeout — in this schedule `stop()` returns after abandoning the worker that
is still inside `transcribe_partial`, and the worker then publishes a
`live-preview-update` event although `stop()` has already returned. -/
theorem preview_event_after_stop_counterexample :
    (lpRun lpStart lpBadSchedule).stopReturned = true ∧
    (lpRun lpStart lpBadSchedule).events =
      [{ isFatalError := false, text := "hello", afterStopReturn := true }] := by
  constructor <;> rfl

/-- C6 amended: once `stop()` returns the audio buffer is empty, and —
provided the worker thread was joined within the timeout rather than
abandoned — no preview event whatsoever is published after `stop()` has
returned; an abandoned worker may still publish the one transcription already
in flight before exiting at its next shutdown check. -/
theorem live_preview_stop_quiescence (schedule : List LPAction) :
    ((lpRun lpStart schedule).stopReturned = true → (lpRun lpStart schedule).buffer = []) ∧
    ((lpRun lpStart schedule).stopReturned = true →
      (lpRun lpStart schedule).abandoned = false →
      ∀ e ∈ (lpRun lpStart schedule).events, e.afterStopReturn = false) := by
  have h := lpInv_run schedule
  exact ⟨h.2.2.1, fun hr hab => h.2.2.2.2.1 hab⟩

/-- C6 amended witness: in a schedule where the worker exits in time and is
joined, after `stop()` returns the buffer is empty and no event carries the
after-stop tag. -/
theorem live_preview_stop_quiescence_witness :
    (lpRun lpStart lpGoodSchedule).stopReturned = true ∧
    (lpRun lpStart lpGoodSchedule).buffer = [] ∧
    ∀ e ∈ (lpRun lpStart lpGoodSchedule).events, e.afterStopReturn = false := by
  have h := live_preview_stop_quiescence lpGoodSchedule
  exact ⟨rfl, h.1 rfl, h.2 rfl rfl⟩

end PaperFlow
